import Mathlib

set_option maxHeartbeats 1000000

namespace SentiencePlayground

/-- A model of Python JSON-like values (the dictionaries produced by
json.loads and passed around the demo scripts).  Numbers are modelled as
integers: the scripts only compare coordinate values against None and pass
them through to the browser driver, so no arithmetic on them occurs. -/
inductive Json where
  | null : Json
  | bool (b : Bool) : Json
  | num (n : Int) : Json
  | str (s : String) : Json
  | arr (xs : List Json) : Json
  | obj (kvs : List (String × Json)) : Json

/-- A Python dict with string keys, as an association list. -/
abbrev PyDict := List (String × Json)

/-- Is this value the JSON null (Python None)? -/
def Json.isNull : Json → Bool
  | Json.null => true
  | _ => false

/-- Is this value a JSON object (Python dict)? -/
def Json.isObj : Json → Bool
  | Json.obj _ => true
  | _ => false

/-- Python truthiness of a JSON value: None, False, 0, empty string, empty
list and empty dict are falsy, everything else is truthy. -/
def pyTruthy : Json → Bool
  | Json.null => false
  | Json.bool b => b
  | Json.num n => n != 0
  | Json.str s => !s.isEmpty
  | Json.arr xs => !xs.isEmpty
  | Json.obj kvs => !kvs.isEmpty

/-- Dictionary lookup: d.get(k) returning the stored value, or none when the
key is absent.  (Python .get returns None for an absent key; a stored None is
modelled as some Json.null.) -/
def jlookup (kvs : PyDict) (k : String) : Option Json :=
  (kvs.find? (fun kv => kv.1 == k)).map (fun kv => kv.2)

/-- d.get(k) on an arbitrary JSON value, defined only for objects.  The demo
scripts call .get on values that are dicts. -/
def jget (j : Json) (k : String) : Option Json :=
  match j with
  | Json.obj kvs => jlookup kvs k
  | _ => none

/-- Python dict assignment d[k] = v, modelled functionally: the first binding
of k is replaced in place, otherwise the binding is appended.  The source
performs this assignment on a shallow copy of the input dict, so the input
itself is left untouched. -/
def setKey : PyDict → String → Json → PyDict
  | [], k, v => [(k, v)]
  | kv :: kvs, k, v => if kv.1 == k then (k, v) :: kvs else kv :: setKey kvs k v

/- ==================================================================
   VisionAgent.analyze_screenshot
   (src/amazon_shopping/demo2_vision_llm/vision_agent.py, lines 27-128)

   The model call, the usage-tracking call and the response handling are
   embedded.  Printing and image encoding are I/O with no influence on the
   returned decision and are omitted.  The OpenAI call outcome is a
   parameter: Except.error models a raised transport / provider exception,
   Except.ok models a received response.  json.loads is likewise a
   parameter, since it is a library collaborator.
   ================================================================== -/

/-- The fields of the OpenAI chat-completions response that
analyze_screenshot reads: choices[0].message.content (None models a missing
content), usage.prompt_tokens, usage.completion_tokens, finish_reason and
message.refusal. -/
structure ApiResponse where
  content : Option String
  promptTokens : Nat
  completionTokens : Nat
  finishReason : String
  refusal : Option String

/-- Observable effects of one analyze_screenshot call: the single OpenAI
API call, and the tracker.log_interaction usage record. -/
inductive Effect where
  | apiCall : Effect
  | logUsage (scene : String) (promptTokens completionTokens : Nat) : Effect

/-- Recognizes the usage-record effect. -/
def Effect.isLogUsage : Effect → Bool
  | Effect.logUsage _ _ _ => true
  | _ => false

/-- Recognizes the API-call effect. -/
def Effect.isApiCall : Effect → Bool
  | Effect.apiCall => true
  | _ => false

/-- The error message built in the empty-content branch (vision_agent.py
lines 96-114): base text plus finish reason, plus the refusal when truthy. -/
def emptyRespMsg (finishReason : String) (refusal : Option String) : String :=
  let base := "Vision LLM returned empty response.\n" ++ "Finish reason: " ++
    finishReason ++ "\n"
  match refusal with
  | some r => if !r.isEmpty then base ++ "Refusal: " ++ r ++ "\n" else base
  | none => base

/-- The safe default dict returned when message content is None
(vision_agent.py lines 110-114). -/
def emptyRespDict (finishReason : String) (refusal : Option String) : Json :=
  Json.obj [("error", Json.str (emptyRespMsg finishReason refusal)),
            ("coordinates", Json.null),
            ("reasoning", Json.str "LLM returned empty response")]

/-- The dict returned when json.loads raises JSONDecodeError
(vision_agent.py lines 124-128). -/
def parseFailDict (errText : String) : Json :=
  Json.obj [("error", Json.str ("JSON parse error: " ++ errText)),
            ("coordinates", Json.null),
            ("reasoning", Json.str "Failed to parse LLM response")]

/-- VisionAgent.analyze_screenshot, vision_agent.py lines 55-128.
jsonLoads models json.loads (Except.error = raised JSONDecodeError),
apiResult models the outcome of self.client.chat.completions.create
(Except.error = raised transport / provider exception).  The first
component is the functions outcome (Except.error = an exception propagating
out of analyze_screenshot); the second is the trace of effects.  Note that
the create call at line 56 is not wrapped in any try block, so a raised
transport error leaves the function before the tracker is reached. -/
def analyze_screenshot (jsonLoads : String → Except String Json)
    (apiResult : Except String ApiResponse) (sceneName : String) :
    Except String Json × List Effect :=
  match apiResult with
  | Except.error msg => (Except.error msg, [Effect.apiCall])
  | Except.ok resp =>
    let effs := [Effect.apiCall,
                 Effect.logUsage sceneName resp.promptTokens resp.completionTokens]
    match resp.content with
    | none => (Except.ok (emptyRespDict resp.finishReason resp.refusal), effs)
    | some s =>
      match jsonLoads s with
      | Except.ok parsed => (Except.ok parsed, effs)
      | Except.error perr => (Except.ok (parseFailDict perr), effs)

/-- A concrete stand-in for json.loads used in closed statements. -/
def constLoads : String → Except String Json :=
  fun _ => Except.ok Json.null

/- ==================================================================
   Scene 3 action execution and fallback chain
   (src/amazon_shopping/demo2_vision_llm/main.py lines 149-197 and
   src/google_search/demo2_vision/main.py lines 152-187)
   ================================================================== -/

/-- The two lines at main.py 150-152 applied to the stored coordinates
value c (Json.null when the key is absent):
coords = c or \x7b\x7d; coords.get(key) if isinstance(coords, dict) else
None.  A Python None is Json.null. -/
def coordFrom (c : Json) (key : String) : Json :=
  match (if pyTruthy c then c else Json.obj []) with
  | Json.obj kvs => (jlookup kvs key).getD Json.null
  | _ => Json.null

/-- x = (result.get('coordinates') or \x7b\x7d).get('x') with the
isinstance guard, main.py lines 150-151. -/
def coordX (result : PyDict) : Json :=
  coordFrom ((jlookup result "coordinates").getD Json.null) "x"

/-- y extraction, main.py lines 150 and 152. -/
def coordY (result : PyDict) : Json :=
  coordFrom ((jlookup result "coordinates").getD Json.null) "y"

/-- Pointer actions issued through the browser boundary during scene 3:
page.mouse.click(x, y) and the locator-based fallback click.
structuralClick records that the structural-locator click was attempted
(the attempt itself may raise inside the try block). -/
inductive PAct where
  | mouseClick (x y : Json) : PAct
  | structuralClick : PAct

/-- How a scene-3 navigation was confirmed: by the primary click, by the
repeated click, or by the structural-locator fallback. -/
inductive ConfirmVia where
  | primary : ConfirmVia
  | retryClick : ConfirmVia
  | structural : ConfirmVia

/-- The outcome of one click attempt as the code judges it: the URL check
if url_before == url_after (main.py lines 177 and 185). -/
inductive AttemptOutcome where
  | Confirmed : AttemptOutcome
  | Unconfirmed : AttemptOutcome

/-- The confirmation check after a click and its settle delay: an unchanged
URL is treated as a possibly failed click (Unconfirmed), a changed URL as
success (Confirmed). -/
def attemptOutcome (urlBefore urlAfter : String) : AttemptOutcome :=
  if urlBefore == urlAfter then AttemptOutcome.Unconfirmed
  else AttemptOutcome.Confirmed

/-- The environment observations scene 3 makes: page.url before the click,
page.url after the click and its settle delay, page.url after the repeated
click, and whether the structural-locator click succeeds (the try block at
main.py lines 189-197 not raising). -/
structure Scene3Env where
  urlBefore : String
  urlAfterClick : String
  urlAfterRetry : String
  structuralOk : Bool

/-- Scene 3 of the Amazon vision demo, main.py lines 149-197: extract and
check the coordinates, click, verify by URL, then the fallback chain
(repeat the click once, then the structural product-link locator, then
raise).  Except.error models the raised exception text; the list is the
trace of pointer actions in order. -/
def amazonScene3 (result : PyDict) (env : Scene3Env) :
    Except String ConfirmVia × List PAct :=
  if (coordX result).isNull || (coordY result).isNull then
    (Except.error "Could not find product coordinates", [])
  else
    match attemptOutcome env.urlBefore env.urlAfterClick with
    | AttemptOutcome.Confirmed =>
      (Except.ok ConfirmVia.primary, [PAct.mouseClick (coordX result) (coordY result)])
    | AttemptOutcome.Unconfirmed =>
      match attemptOutcome env.urlBefore env.urlAfterRetry with
      | AttemptOutcome.Confirmed =>
        (Except.ok ConfirmVia.retryClick,
         [PAct.mouseClick (coordX result) (coordY result),
          PAct.mouseClick (coordX result) (coordY result)])
      | AttemptOutcome.Unconfirmed =>
        if env.structuralOk then
          (Except.ok ConfirmVia.structural,
           [PAct.mouseClick (coordX result) (coordY result),
            PAct.mouseClick (coordX result) (coordY result),
            PAct.structuralClick])
        else
          (Except.error "Could not navigate to product page",
           [PAct.mouseClick (coordX result) (coordY result),
            PAct.mouseClick (coordX result) (coordY result),
            PAct.structuralClick])

/-- Scene 3 of the Google vision demo, google_search/demo2_vision/main.py
lines 152-187: same coordinate extraction and check, click, URL check,
one repeated click; there is no structural fallback, a second unchanged
URL raises. -/
def googleScene3 (result : PyDict)
    (urlBefore urlAfterClick urlAfterRetry : String) :
    Except String ConfirmVia × List PAct :=
  if (coordX result).isNull || (coordY result).isNull then
    (Except.error "Could not find search result coordinates", [])
  else
    match attemptOutcome urlBefore urlAfterClick with
    | AttemptOutcome.Confirmed =>
      (Except.ok ConfirmVia.primary, [PAct.mouseClick (coordX result) (coordY result)])
    | AttemptOutcome.Unconfirmed =>
      match attemptOutcome urlBefore urlAfterRetry with
      | AttemptOutcome.Confirmed =>
        (Except.ok ConfirmVia.retryClick,
         [PAct.mouseClick (coordX result) (coordY result),
          PAct.mouseClick (coordX result) (coordY result)])
      | AttemptOutcome.Unconfirmed =>
        (Except.error "Could not navigate to result page",
         [PAct.mouseClick (coordX result) (coordY result),
          PAct.mouseClick (coordX result) (coordY result)])

/-- The scenes that run after scene 3 in the straight-line Amazon script:
a raised exception in scene 3 propagates and aborts the run, so nothing
later executes. -/
def amazonScenesAfter3 (result : PyDict) (env : Scene3Env) : List String :=
  match (amazonScene3 result env).1 with
  | Except.error _ => []
  | Except.ok _ => ["Scene 4: Add to Cart", "Scene 5: Verify Success"]

/- ==================================================================
   Coordinate validation before acting
   (src/amazon_shopping/demo2_vision_llm/main.py lines 86-96 and
   src/google_search/demo1_sdk/main.py lines 137-144)
   ================================================================== -/

/-- Scene 1 of the Amazon vision demo, main.py lines 86-95:
coords = result.get('coordinates', \x7b\x7d); x = coords.get('x');
y = coords.get('y'); if x is None or y is None: raise; else
page.mouse.click(x, y).  Except.ok (x, y) means the click is issued with
those values; Except.error is the raised exception.  A stored coordinates
value that is not a dict (for example None) makes coords.get raise an
AttributeError in Python before the None check runs. -/
def amazonScene1Click (result : PyDict) : Except String (Json × Json) :=
  match (jlookup result "coordinates").getD (Json.obj []) with
  | Json.obj kvs =>
    let x := (jlookup kvs "x").getD Json.null
    let y := (jlookup kvs "y").getD Json.null
    if x.isNull || y.isNull then
      Except.error "Could not find search bar coordinates"
    else Except.ok (x, y)
  | _ => Except.error "AttributeError"

/-- Scene 1 validation of the SDK demo, google_search/demo1_sdk/main.py
lines 137-144: if not result.get('bbox') or result['bbox'].get('x') is
None: return (no click); otherwise click_rect on the bbox.  Except.ok none
is the early return, Except.ok (some b) means click_rect is invoked on b,
Except.error is a raised AttributeError (truthy non-dict bbox). -/
def demo1SceneClick (result : PyDict) : Except String (Option Json) :=
  if !(pyTruthy ((jlookup result "bbox").getD Json.null)) then Except.ok none
  else
    match (jlookup result "bbox").getD Json.null with
    | Json.obj kvs =>
      if ((jlookup kvs "x").getD Json.null).isNull then Except.ok none
      else Except.ok (some (Json.obj kvs))
    | _ => Except.error "AttributeError"

/- ==================================================================
   filter_elements (src/google_search/demo1_sdk/main.py lines 26-41)
   ================================================================== -/

/-- The filter predicate of the list comprehension at main.py lines 31-34:
keep elem when elem.get('role') not in exclude_roles.  A missing role or a
non-string role value never equals any of the excluded role strings, so
such elements are kept. -/
def roleNotExcluded (elem : Json) (excludeRoles : List String) : Bool :=
  match elem with
  | Json.obj kvs =>
    match jlookup kvs "role" with
    | some (Json.str s) => !(excludeRoles.contains s)
    | _ => true
  | _ => true

/-- elem.get('role') evaluation: raises (AttributeError) when elem is not a
dict, otherwise yields the keep decision of roleNotExcluded. -/
def elemKeep (elem : Json) (excludeRoles : List String) : Except String Bool :=
  match elem with
  | Json.obj _ => Except.ok (roleNotExcluded elem excludeRoles)
  | _ => Except.error "AttributeError"

/-- The list comprehension at main.py lines 31-34, which raises at the
first non-dict element. -/
def filterElems (excludeRoles : List String) : List Json → Except String (List Json)
  | [] => Except.ok []
  | el :: els =>
    match elemKeep el excludeRoles with
    | Except.error msg => Except.error msg
    | Except.ok b =>
      match filterElems excludeRoles els with
      | Except.error msg => Except.error msg
      | Except.ok rest => Except.ok (if b then el :: rest else rest)

/-- filter_elements, main.py lines 26-41: shallow-copy the snapshot dict,
filter snapshot_data.get('elements', []) by role, assign the filtered list
to the key elements of the copy, return the copy.  Except.error models a
raised Python exception on ill-typed input (a non-dict snapshot, a non-list
elements value, a non-dict element); the counting and printing are I/O with
no effect on the result and are omitted. -/
def filter_elements (snapshotData : Json) (excludeRoles : List String) :
    Except String Json :=
  match snapshotData with
  | Json.obj kvs =>
    match (jlookup kvs "elements").getD (Json.arr []) with
    | Json.arr xs =>
      match filterElems excludeRoles xs with
      | Except.ok kept => Except.ok (Json.obj (setKey kvs "elements" (Json.arr kept)))
      | Except.error msg => Except.error msg
    | _ => Except.error "TypeError"
  | _ => Except.error "AttributeError"

/- ==================================================================
   format_size (src/local_llm/check_cache_sizes.py lines 29-35)

   The Python function computes with binary floats.  Division by 1024 is
   exact in binary floating point, and an integer byte count below 2 to the
   53 converts to float exactly, so for all realistic inputs the float run
   agrees with the exact rational arithmetic used here; CPython string
   formatting of an exactly representable value rounds the decimal digit
   half to even, which roundHalfEven mirrors.
   ================================================================== -/

/-- Rounding to the nearest integer with ties to even, as CPython format
does at the last kept decimal digit. -/
def roundHalfEven (q : ℚ) : ℤ :=
  if q - ⌊q⌋ < 1/2 then ⌊q⌋
  else if 1/2 < q - ⌊q⌋ then ⌊q⌋ + 1
  else if ⌊q⌋ % 2 = 0 then ⌊q⌋ else ⌊q⌋ + 1

/-- Formatting with one decimal place (".1f") for a nonnegative value:
round 10q half-to-even, print the integer part, a dot, and the final
digit. -/
def fmt1 (q : ℚ) : String :=
  toString (roundHalfEven (q * 10) / 10) ++ "." ++
    toString (roundHalfEven (q * 10) % 10)

/-- The unit loop of format_size, check_cache_sizes.py lines 31-34: for
each unit in turn, return at the first unit where the running value is
below 1024, otherwise divide by 1024 and continue; after the loop the
value has been divided five times and is rendered in PB (line 35). -/
def formatSizeLoop : ℚ → List String → String
  | x, [] => fmt1 x ++ " PB"
  | x, u :: us =>
    if x < 1024 then fmt1 x ++ " " ++ u else formatSizeLoop (x / 1024) us

/-- format_size, check_cache_sizes.py lines 29-35. -/
def format_size (x : ℚ) : String :=
  formatSizeLoop x ["B", "KB", "MB", "GB", "TB"]

/-- Modelled from the claim wording, for comparison with format_size: the
byte count scaled by successive division by 1024, rendered with the first
unit among B, KB, MB, GB, TB for which the scaled value is below 1024,
falling back to PB otherwise. -/
def format_sizeSpec (x : ℚ) : String :=
  if x < 1024 then fmt1 x ++ " B"
  else if x / 1024 < 1024 then fmt1 (x / 1024) ++ " KB"
  else if x / 1024 ^ 2 < 1024 then fmt1 (x / 1024 ^ 2) ++ " MB"
  else if x / 1024 ^ 3 < 1024 then fmt1 (x / 1024 ^ 3) ++ " GB"
  else if x / 1024 ^ 4 < 1024 then fmt1 (x / 1024 ^ 4) ++ " TB"
  else fmt1 (x / 1024 ^ 5) ++ " PB"

/- ==================================================================
   Theorems
   ================================================================== -/

/-- C2: for every model response string, if parsing it as JSON fails, the
locator call returns a Malformed-style dict carrying the parse error with
coordinates set to None, and the parse exception never propagates to the
caller; the same holds when the provider returns empty content. -/
theorem parse_fault_contained (jsonLoads : String → Except String Json)
    (resp : ApiResponse) (sceneName : String)
    (h : resp.content = none ∨
      ∃ s msg, resp.content = some s ∧ jsonLoads s = Except.error msg) :
    ∃ d : Json,
      (analyze_screenshot jsonLoads (Except.ok resp) sceneName).1 = Except.ok d ∧
      jget d "coordinates" = some Json.null ∧
      (∃ em, jget d "error" = some (Json.str em)) ∧
      (∀ s msg, resp.content = some s → jsonLoads s = Except.error msg →
        jget d "error" = some (Json.str ("JSON parse error: " ++ msg))) := by
  rcases h with hc | ⟨s, msg, hc, hj⟩
  · refine ⟨emptyRespDict resp.finishReason resp.refusal, ?_, rfl, ⟨_, rfl⟩, ?_⟩
    · simp [analyze_screenshot, hc]
    · intro s msg hs _
      rw [hc] at hs
      cases hs
  · refine ⟨parseFailDict msg, ?_, rfl, ⟨_, rfl⟩, ?_⟩
    · simp [analyze_screenshot, hc, hj]
    · intro s2 msg2 hs2 hj2
      rw [hc] at hs2
      cases hs2
      rw [hj] at hj2
      cases hj2
      rfl

/-- Witness for parse_fault_contained at a concrete unparsable response. -/
theorem parse_fault_contained_witness :
    ∃ d : Json,
      (analyze_screenshot (fun _ => Except.error "Expecting value")
        (Except.ok ⟨some "not json", 100, 20, "stop", none⟩) "Scene 3").1
          = Except.ok d ∧
      jget d "coordinates" = some Json.null ∧
      (∃ em, jget d "error" = some (Json.str em)) ∧
      (∀ s msg, (some "not json" : Option String) = some s →
        (Except.error "Expecting value" : Except String Json) = Except.error msg →
        jget d "error" = some (Json.str ("JSON parse error: " ++ msg))) :=
  parse_fault_contained (fun _ => Except.error "Expecting value")
    ⟨some "not json", 100, 20, "stop", none⟩ "Scene 3"
    (Or.inr ⟨"not json", "Expecting value", rfl, rfl⟩)

/-- C3 counterexample: at a concrete transport failure the locator call
propagates the exception instead of returning a Malformed result. -/
theorem transport_fault_cex :
    (analyze_screenshot constLoads (Except.error "APIConnectionError")
      "Scene 1: Find Search Bar").1 = Except.error "APIConnectionError" ∧
    ¬ ∃ d : Json, (analyze_screenshot constLoads (Except.error "APIConnectionError")
      "Scene 1: Find Search Bar").1 = Except.ok d := by
  refine ⟨rfl, ?_⟩
  rintro ⟨d, hd⟩
  simp [analyze_screenshot] at hd

/-- C3 amended: a transport- or provider-level failure of the model call is
not caught inside analyze_screenshot and propagates to the caller, and the
call is never retried internally: exactly one API call is issued in every
execution of analyze_screenshot. -/
theorem transport_fault_amended :
    (∀ (jsonLoads : String → Except String Json) (msg sceneName : String),
      analyze_screenshot jsonLoads (Except.error msg) sceneName
        = (Except.error msg, [Effect.apiCall])) ∧
    (∀ (jsonLoads : String → Except String Json)
       (apiResult : Except String ApiResponse) (sceneName : String),
      ((analyze_screenshot jsonLoads apiResult sceneName).2).countP
        Effect.isApiCall = 1) := by
  refine ⟨fun _ _ _ => rfl, ?_⟩
  intro jsonLoads apiResult sceneName
  cases apiResult with
  | error msg => rfl
  | ok resp =>
    cases hc : resp.content with
    | none => simp [analyze_screenshot, hc, List.countP, List.countP.go, Effect.isApiCall]
    | some s =>
      cases hj : jsonLoads s <;>
        simp [analyze_screenshot, hc, hj, List.countP, List.countP.go, Effect.isApiCall]

/-- C8: every locator call that receives a provider response emits exactly
one usage record, carrying the scene name and the prompt and completion
token counts, before analyze_screenshot returns; this includes calls whose
content is empty and calls whose content fails to parse as JSON. -/
theorem usage_record_exactly_once (jsonLoads : String → Except String Json)
    (resp : ApiResponse) (sceneName : String) :
    ((analyze_screenshot jsonLoads (Except.ok resp) sceneName).2).filter
        Effect.isLogUsage
      = [Effect.logUsage sceneName resp.promptTokens resp.completionTokens] := by
  cases hc : resp.content with
  | none => simp [analyze_screenshot, hc, List.filter, Effect.isLogUsage]
  | some s =>
    cases hj : jsonLoads s <;>
      simp [analyze_screenshot, hc, hj, List.filter, Effect.isLogUsage]

/-- The condition of claim C1 on a parsed model response: the coordinates
entry is missing, None, not a dict, or a dict whose x or y is missing or
None. -/
def NoUsableCoords (result : PyDict) : Prop :=
  jlookup result "coordinates" = none ∨
  jlookup result "coordinates" = some Json.null ∨
  (∃ c, jlookup result "coordinates" = some c ∧ c.isObj = false) ∨
  (∃ kvs, jlookup result "coordinates" = some (Json.obj kvs) ∧
    ((jlookup kvs "x").getD Json.null = Json.null ∨
     (jlookup kvs "y").getD Json.null = Json.null))

theorem coordFrom_nonObj (c : Json) (h : c.isObj = false) (key : String) :
    coordFrom c key = Json.null := by
  have hif : (if pyTruthy c then c else Json.obj []) = c ∨
      (if pyTruthy c then c else Json.obj []) = Json.obj [] := by
    split
    · exact Or.inl rfl
    · exact Or.inr rfl
  unfold coordFrom
  rcases hif with hif | hif
  · rw [hif]
    cases c with
    | obj kvs => simp [Json.isObj] at h
    | null => rfl
    | bool b => rfl
    | num n => rfl
    | str s => rfl
    | arr xs => rfl
  · rw [hif]
    rfl

theorem coordFrom_obj (kvs : PyDict) (key : String) :
    coordFrom (Json.obj kvs) key = (jlookup kvs key).getD Json.null := by
  cases kvs <;> rfl

theorem coords_null_of_noUsable {result : PyDict} (h : NoUsableCoords result) :
    ((coordX result).isNull || (coordY result).isNull) = true := by
  rcases h with h | h | ⟨c, hc, hobj⟩ | ⟨kvs, hc, hxy⟩
  · have hx : coordX result = Json.null := by unfold coordX; rw [h]; rfl
    rw [hx]; rfl
  · have hx : coordX result = Json.null := by unfold coordX; rw [h]; rfl
    rw [hx]; rfl
  · have hx : coordX result = Json.null := by
      unfold coordX; rw [hc]; exact coordFrom_nonObj c hobj "x"
    rw [hx]; rfl
  · rcases hxy with hx | hy
    · have hxn : coordX result = Json.null := by
        unfold coordX; rw [hc]
        exact (coordFrom_obj kvs "x").trans hx
      rw [hxn]; rfl
    · have hyn : coordY result = Json.null := by
        unfold coordY; rw [hc]
        exact (coordFrom_obj kvs "y").trans hy
      rw [hyn]
      simp [Json.isNull]

/-- C1: on a decision with no usable coordinates (coordinates missing,
None, not a dict, or x or y None), the scene-3 action-execution step of
both vision demos fails with the raised coordinate error and issues no
pointer action at all. -/
theorem unresolved_decision_no_click (result : PyDict) (env : Scene3Env)
    (u1 u2 u3 : String) (h : NoUsableCoords result) :
    amazonScene3 result env
      = (Except.error "Could not find product coordinates", []) ∧
    googleScene3 result u1 u2 u3
      = (Except.error "Could not find search result coordinates", []) := by
  have hn := coords_null_of_noUsable h
  constructor <;> simp [amazonScene3, googleScene3, hn]

/-- Witness for unresolved_decision_no_click: a decision whose coordinates
entry is None. -/
theorem unresolved_decision_no_click_witness :
    amazonScene3 [("coordinates", Json.null)] ⟨"u", "u", "u", true⟩
      = (Except.error "Could not find product coordinates", []) ∧
    googleScene3 [("coordinates", Json.null)] "a" "b" "c"
      = (Except.error "Could not find search result coordinates", []) :=
  unresolved_decision_no_click [("coordinates", Json.null)] ⟨"u", "u", "u", true⟩
    "a" "b" "c" (Or.inr (Or.inl rfl))

/-- C5: for a Located decision acted on, if the page URL is the same before
the click and after the settle delay, the code treats the attempt as
Unconfirmed, not Confirmed: the per-attempt check yields Unconfirmed and
neither demo concludes the scene through the primary click. -/
theorem unchanged_url_unconfirmed (result : PyDict) (u urlRetry : String)
    (sOk : Bool) (hx : (coordX result).isNull = false)
    (hy : (coordY result).isNull = false) :
    attemptOutcome u u = AttemptOutcome.Unconfirmed ∧
    (amazonScene3 result ⟨u, u, urlRetry, sOk⟩).1 ≠ Except.ok ConfirmVia.primary ∧
    (googleScene3 result u u urlRetry).1 ≠ Except.ok ConfirmVia.primary := by
  have hA : attemptOutcome u u = AttemptOutcome.Unconfirmed := by
    simp [attemptOutcome]
  refine ⟨hA, ?_, ?_⟩ <;>
    cases hB : attemptOutcome u urlRetry <;>
      cases sOk <;> simp [amazonScene3, googleScene3, hx, hy, hA, hB]

/-- Witness for unchanged_url_unconfirmed at concrete coordinates and an
unchanged URL. -/
theorem unchanged_url_unconfirmed_witness :
    attemptOutcome "https://a" "https://a" = AttemptOutcome.Unconfirmed ∧
    (amazonScene3 [("coordinates", Json.obj [("x", Json.num 960), ("y", Json.num 120)])]
      ⟨"https://a", "https://a", "https://b", true⟩).1 ≠ Except.ok ConfirmVia.primary ∧
    (googleScene3 [("coordinates", Json.obj [("x", Json.num 960), ("y", Json.num 120)])]
      "https://a" "https://a" "https://b").1 ≠ Except.ok ConfirmVia.primary :=
  unchanged_url_unconfirmed
    [("coordinates", Json.obj [("x", Json.num 960), ("y", Json.num 120)])]
    "https://a" "https://b" true rfl rfl

/-- C6: when the primary click is Unconfirmed, the fallback strategies run
in a fixed order: the repeated identical click (strategy 1) strictly before
the structural locator (strategy 2) strictly before abort; when strategy 1
also fails to confirm but the structural locator works, the scene concludes
Confirmed via the structural strategy, with the action trace showing both
clicks before the structural click. -/
theorem fallback_order_structural_confirms (result : PyDict) (env : Scene3Env)
    (hx : (coordX result).isNull = false) (hy : (coordY result).isNull = false)
    (h1 : env.urlAfterClick = env.urlBefore) (h2 : env.urlAfterRetry = env.urlBefore)
    (hs : env.structuralOk = true) :
    amazonScene3 result env = (Except.ok ConfirmVia.structural,
      [PAct.mouseClick (coordX result) (coordY result),
       PAct.mouseClick (coordX result) (coordY result),
       PAct.structuralClick]) := by
  have hA : attemptOutcome env.urlBefore env.urlAfterClick
      = AttemptOutcome.Unconfirmed := by simp [attemptOutcome, h1]
  have hB : attemptOutcome env.urlBefore env.urlAfterRetry
      = AttemptOutcome.Unconfirmed := by simp [attemptOutcome, h2]
  simp [amazonScene3, hx, hy, hA, hB, hs]

/-- Witness for fallback_order_structural_confirms. -/
theorem fallback_order_structural_confirms_witness :
    amazonScene3 [("coordinates", Json.obj [("x", Json.num 960), ("y", Json.num 120)])]
      ⟨"https://a", "https://a", "https://a", true⟩
      = (Except.ok ConfirmVia.structural,
        [PAct.mouseClick (Json.num 960) (Json.num 120),
         PAct.mouseClick (Json.num 960) (Json.num 120),
         PAct.structuralClick]) :=
  fallback_order_structural_confirms
    [("coordinates", Json.obj [("x", Json.num 960), ("y", Json.num 120)])]
    ⟨"https://a", "https://a", "https://a", true⟩ rfl rfl rfl rfl rfl

/-- C7: when the URL is unchanged after the click and after the repeat, the
structural fallback is invoked (it appears in the action trace); when the
structural fallback also fails, the scene raises the navigation error and
the run halts there: no later scene executes. -/
theorem structural_failure_halts_run (result : PyDict) (env : Scene3Env)
    (hx : (coordX result).isNull = false) (hy : (coordY result).isNull = false)
    (h1 : env.urlAfterClick = env.urlBefore) (h2 : env.urlAfterRetry = env.urlBefore)
    (hs : env.structuralOk = false) :
    (amazonScene3 result env).1
        = Except.error "Could not navigate to product page" ∧
    (amazonScene3 result env).2
        = [PAct.mouseClick (coordX result) (coordY result),
           PAct.mouseClick (coordX result) (coordY result),
           PAct.structuralClick] ∧
    amazonScenesAfter3 result env = [] := by
  have hA : attemptOutcome env.urlBefore env.urlAfterClick
      = AttemptOutcome.Unconfirmed := by simp [attemptOutcome, h1]
  have hB : attemptOutcome env.urlBefore env.urlAfterRetry
      = AttemptOutcome.Unconfirmed := by simp [attemptOutcome, h2]
  refine ⟨?_, ?_, ?_⟩ <;>
    simp [amazonScene3, amazonScenesAfter3, hx, hy, hA, hB, hs]

/-- Witness for structural_failure_halts_run. -/
theorem structural_failure_halts_run_witness :
    (amazonScene3 [("coordinates", Json.obj [("x", Json.num 960), ("y", Json.num 120)])]
      ⟨"https://a", "https://a", "https://a", false⟩).1
        = Except.error "Could not navigate to product page" ∧
    (amazonScene3 [("coordinates", Json.obj [("x", Json.num 960), ("y", Json.num 120)])]
      ⟨"https://a", "https://a", "https://a", false⟩).2
        = [PAct.mouseClick (Json.num 960) (Json.num 120),
           PAct.mouseClick (Json.num 960) (Json.num 120),
           PAct.structuralClick] ∧
    amazonScenesAfter3 [("coordinates", Json.obj [("x", Json.num 960), ("y", Json.num 120)])]
      ⟨"https://a", "https://a", "https://a", false⟩ = [] :=
  structural_failure_halts_run
    [("coordinates", Json.obj [("x", Json.num 960), ("y", Json.num 120)])]
    ⟨"https://a", "https://a", "https://a", false⟩ rfl rfl rfl rfl rfl

/-- C4 counterexample: a decision whose x and y are present but of
non-numeric (string) type passes the validation of Amazon scene 1 and the
pointer action is issued with those string values; no downgrade to an
unresolved decision happens, contradicting the claim that a wrongly typed
coordinate is never acted on. -/
theorem coord_type_unchecked_cex :
    amazonScene1Click
        [("coordinates", Json.obj [("x", Json.str "950"), ("y", Json.str "540")])]
      = Except.ok (Json.str "950", Json.str "540") ∧
    (googleScene3
        [("coordinates", Json.obj [("x", Json.str "950"), ("y", Json.str "540")])]
        "https://a" "https://b" "https://b").2
      = [PAct.mouseClick (Json.str "950") (Json.str "540")] := by
  constructor <;> rfl

/-- C4 amended: a coordinate that is absent or None is never acted on: in
Amazon scene 1 a missing coordinates key, or a coordinates dict whose x or
y is absent or None, raises the controlled error before any click, and in
the SDK demo a falsy bbox or a bbox whose x is absent or None causes the
early return with no click.  No numeric type check is performed, so a
present non-None coordinate of any type is acted on (see the
counterexample). -/
theorem absent_coord_refused :
    (∀ result : PyDict, jlookup result "coordinates" = none →
      amazonScene1Click result = Except.error "Could not find search bar coordinates") ∧
    (∀ (result : PyDict) (kvs : PyDict),
      jlookup result "coordinates" = some (Json.obj kvs) →
      ((jlookup kvs "x").getD Json.null = Json.null ∨
       (jlookup kvs "y").getD Json.null = Json.null) →
      amazonScene1Click result = Except.error "Could not find search bar coordinates") ∧
    (∀ result : PyDict, pyTruthy ((jlookup result "bbox").getD Json.null) = false →
      demo1SceneClick result = Except.ok none) ∧
    (∀ (result : PyDict) (kvs : PyDict), jlookup result "bbox" = some (Json.obj kvs) →
      (jlookup kvs "x").getD Json.null = Json.null →
      demo1SceneClick result = Except.ok none) := by
  refine ⟨?_, ?_, ?_, ?_⟩
  · intro result h
    unfold amazonScene1Click
    rw [h]
    rfl
  · intro result kvs h hxy
    unfold amazonScene1Click
    rw [h]
    rcases hxy with hx | hy
    · simp [hx, Json.isNull]
    · simp [hy, Json.isNull]
  · intro result h
    unfold demo1SceneClick
    rw [h]
    rfl
  · intro result kvs h hx
    unfold demo1SceneClick
    rw [h]
    by_cases ht : pyTruthy (Json.obj kvs) = true
    · simp [ht, hx, Json.isNull]
    · simp [ht]

/-- Witness for absent_coord_refused at the decision of Scenario B, with x
present but None. -/
theorem absent_coord_refused_witness :
    amazonScene1Click
        [("coordinates", Json.obj [("x", Json.null), ("y", Json.num 200)])]
      = Except.error "Could not find search bar coordinates" :=
  absent_coord_refused.2.1
    [("coordinates", Json.obj [("x", Json.null), ("y", Json.num 200)])]
    [("x", Json.null), ("y", Json.num 200)] rfl (Or.inl rfl)

/- ==================================================================
   Theorems about filter_elements
   ================================================================== -/

theorem jlookup_setKey_self (kvs : PyDict) (k : String) (v : Json) :
    jlookup (setKey kvs k v) k = some v := by
  induction kvs with
  | nil => simp [setKey, jlookup]
  | cons kv rest ih =>
    cases hb : (kv.1 == k) with
    | true => simp [setKey, hb, jlookup]
    | false =>
      simp only [setKey, hb, Bool.false_eq_true, if_false]
      simp only [jlookup, List.find?] at ih ⊢
      rw [hb]
      exact ih

theorem jlookup_setKey_ne (kvs : PyDict) (k k2 : String) (v : Json)
    (hne : k2 ≠ k) :
    jlookup (setKey kvs k v) k2 = jlookup kvs k2 := by
  have h2 : (k == k2) = false := by
    rw [beq_eq_false_iff_ne]
    exact fun hk => hne hk.symm
  induction kvs with
  | nil => simp [setKey, jlookup, List.find?, h2]
  | cons kv rest ih =>
    cases hb : (kv.1 == k) with
    | true =>
      have hk : kv.1 = k := by simpa [beq_iff_eq] using hb
      have h2kv : (kv.1 == k2) = false := by rw [hk]; exact h2
      simp only [setKey, hb, if_true]
      simp only [jlookup, List.find?, h2, h2kv]
    | false =>
      simp only [setKey, hb, Bool.false_eq_true, if_false]
      simp only [jlookup, List.find?] at ih ⊢
      cases hkv2 : (kv.1 == k2) with
      | true => rfl
      | false => exact ih

theorem elemKeep_of_obj (el : Json) (excl : List String) (h : el.isObj = true) :
    elemKeep el excl = Except.ok (roleNotExcluded el excl) := by
  cases el <;> simp_all [Json.isObj, elemKeep]

theorem filterElems_allObj (excl : List String) (xs : List Json)
    (h : ∀ el ∈ xs, el.isObj = true) :
    filterElems excl xs
      = Except.ok (xs.filter (fun el => roleNotExcluded el excl)) := by
  induction xs with
  | nil => rfl
  | cons el els ih =>
    have hel := h el (by simp)
    have hels : ∀ el2 ∈ els, el2.isObj = true := fun el2 he => h el2 (by simp [he])
    rw [List.filter_cons]
    simp only [filterElems, elemKeep_of_obj el excl hel, ih hels]

/-- C9: on a snapshot dict whose elements entry is a list of dicts,
filter_elements returns (without raising) a dict whose elements list is
exactly the input elements whose role is not in the exclusion list, in
their original relative order (List.filter preserves order), and whose
every other key is unchanged.  The source builds this on a shallow copy of
the snapshot, so the input dict and its elements list are left intact; in
this functional model the input term is untouched by construction. -/
theorem filter_elements_spec (kvs : PyDict) (excl : List String) (xs : List Json)
    (helems : jlookup kvs "elements" = some (Json.arr xs))
    (hobj : ∀ el ∈ xs, el.isObj = true) :
    filter_elements (Json.obj kvs) excl
      = Except.ok (Json.obj (setKey kvs "elements"
          (Json.arr (xs.filter (fun el => roleNotExcluded el excl))))) ∧
    jlookup (setKey kvs "elements"
        (Json.arr (xs.filter (fun el => roleNotExcluded el excl)))) "elements"
      = some (Json.arr (xs.filter (fun el => roleNotExcluded el excl))) ∧
    (∀ k2, k2 ≠ "elements" →
      jlookup (setKey kvs "elements"
          (Json.arr (xs.filter (fun el => roleNotExcluded el excl)))) k2
        = jlookup kvs k2) := by
  refine ⟨?_, jlookup_setKey_self kvs "elements" _,
    fun k2 h2 => jlookup_setKey_ne kvs "elements" k2 _ h2⟩
  have hstep : filter_elements (Json.obj kvs) excl
      = (match (jlookup kvs "elements").getD (Json.arr []) with
         | Json.arr xs2 =>
           match filterElems excl xs2 with
           | Except.ok kept =>
             Except.ok (Json.obj (setKey kvs "elements" (Json.arr kept)))
           | Except.error msg => Except.error msg
         | _ => Except.error "TypeError") := rfl
  rw [hstep, helems]
  simp only [Option.getD_some]
  rw [filterElems_allObj excl xs hobj]

/-- Witness for filter_elements_spec on a concrete two-element snapshot:
the img element is dropped, the link element and the url key survive. -/
theorem filter_elements_spec_witness :
    filter_elements
        (Json.obj [("url", Json.str "https://www.google.com"),
          ("elements", Json.arr
            [Json.obj [("id", Json.num 1), ("role", Json.str "img")],
             Json.obj [("id", Json.num 2), ("role", Json.str "link")]])])
        ["img", "button"]
      = Except.ok (Json.obj [("url", Json.str "https://www.google.com"),
          ("elements", Json.arr
            [Json.obj [("id", Json.num 2), ("role", Json.str "link")]])]) := by
  have h := (filter_elements_spec
    [("url", Json.str "https://www.google.com"),
     ("elements", Json.arr
       [Json.obj [("id", Json.num 1), ("role", Json.str "img")],
        Json.obj [("id", Json.num 2), ("role", Json.str "link")]])]
    ["img", "button"]
    [Json.obj [("id", Json.num 1), ("role", Json.str "img")],
     Json.obj [("id", Json.num 2), ("role", Json.str "link")]]
    rfl ?_).1
  · exact h
  · intro el hel
    simp only [List.mem_cons, List.not_mem_nil, or_false] at hel
    rcases hel with rfl | rfl <;> rfl

/- ==================================================================
   Theorems about format_size
   ================================================================== -/

theorem roundHalfEven_intCast (m : ℤ) : roundHalfEven (m : ℚ) = m := by
  unfold roundHalfEven
  simp [Int.floor_intCast]

theorem fmt1_natCast (n : ℕ) : fmt1 (n : ℚ) = toString (n : ℤ) ++ ".0" := by
  unfold fmt1
  have h10 : ((n : ℚ) * 10) = ((10 * (n : ℤ) : ℤ) : ℚ) := by push_cast; ring
  have hdiv : (10 * (n : ℤ)) / 10 = (n : ℤ) := by omega
  have hmod : (10 * (n : ℤ)) % 10 = 0 := by omega
  rw [h10, roundHalfEven_intCast, hdiv, hmod]
  simp only [String.append_assoc]
  rfl

theorem format_size_eq_spec (x : ℚ) : format_size x = format_sizeSpec x := by
  have e1 : x / 1024 / 1024 = x / 1024 ^ 2 := by rw [div_div]; norm_num
  have e2 : x / 1024 ^ 2 / 1024 = x / 1024 ^ 3 := by rw [div_div]; norm_num [pow_succ]
  have e3 : x / 1024 ^ 3 / 1024 = x / 1024 ^ 4 := by rw [div_div]; norm_num [pow_succ]
  have e4 : x / 1024 ^ 4 / 1024 = x / 1024 ^ 5 := by rw [div_div]; norm_num [pow_succ]
  simp only [format_size, formatSizeLoop, format_sizeSpec, e1, e2, e3, e4,
    String.append_assoc]
  rfl

/-- C10: for every nonnegative byte count, format_size renders the count
scaled by successive division by 1024, with the first unit among B, KB,
MB, GB, TB for which the scaled value is below 1024, falling back to PB
after five divisions; in particular every integer count below 1024 is
rendered as the integer followed by ".0 B". -/
theorem format_size_correct :
    (∀ x : ℚ, 0 ≤ x → format_size x = format_sizeSpec x) ∧
    (∀ n : ℕ, n < 1024 → format_size (n : ℚ) = toString (n : ℤ) ++ ".0 B") := by
  refine ⟨fun x _ => format_size_eq_spec x, fun n hn => ?_⟩
  have hq : (n : ℚ) < 1024 := by exact_mod_cast hn
  simp only [format_size, formatSizeLoop, if_pos hq, fmt1_natCast,
    String.append_assoc]
  rfl

/-- Witness for format_size_correct at the concrete counts 1536 and 512. -/
theorem format_size_correct_witness :
    ((0 : ℚ) ≤ 1536 ∧ format_size 1536 = format_sizeSpec 1536) ∧
    (512 < 1024 ∧ format_size ((512 : ℕ) : ℚ) = toString ((512 : ℕ) : ℤ) ++ ".0 B") :=
  ⟨⟨by decide, format_size_correct.1 1536 (by decide)⟩,
   ⟨by decide, format_size_correct.2 512 (by decide)⟩⟩

end SentiencePlayground
